import Mathlib

/-! # Two-party chat over one socket (lessons/02-chat)

A shallow embedding of `client.cpp` and `server.cpp`.  Both programs establish
one connected socket and then run the same `select()` loop over standard input
and that socket.  Every system call and every console write is recorded as an
`Event`; the values the operating system hands back (return codes, the
descriptor set left by `select`, the line obtained by `std::getline`, the bytes
stored by `recv`) are inputs of the model.

Bytes are natural numbers; the text of the string literals is their UTF-8
encoding, which is the encoding of the two source files.
-/

namespace Chat

/-! ## Bytes, descriptors, constants -/

abbrev Byte := Nat
abbrev Fd := Int

/-- Descriptor of standard input (`unistd.h`). -/
def STDIN_FILENO : Fd := 0

/-- Source constant `BUFFER_SIZE`. -/
def BUFFER_SIZE : Nat := 1024

/-- Source constant `PORT`. -/
def PORT : Nat := 8080

/-- Source constant `SERVER_IP` (client only). -/
def SERVER_IP : String := "127.0.0.1"

/-- UTF-8 encoding of one code point. -/
def utf8EncodeNat (v : Nat) : List Byte :=
  if v ≤ 0x7f then [v]
  else if v ≤ 0x7ff then [0xc0 + v / 64, 0x80 + v % 64]
  else if v ≤ 0xffff then [0xe0 + v / 4096, 0x80 + v / 64 % 64, 0x80 + v % 64]
  else [0xf0 + v / 262144, 0x80 + v / 4096 % 64, 0x80 + v / 64 % 64, 0x80 + v % 64]

/-- Bytes of a string literal of the source. -/
def utf8 (s : String) : List Byte :=
  s.data.flatMap (fun c => utf8EncodeNat c.toNat)

/-- Text written by `std::endl`. -/
def endl : List Byte := [10]

/-! ## Observable events -/

inductive Event where
  | socket
  | setsockopt (fd : Fd)
  | bind (fd : Fd) (port : Nat)
  | listen (fd : Fd) (backlog : Nat)
  | accept (fd : Fd)
  | inet_pton (ip : String)
  | connect (fd : Fd) (port : Nat)
  | select (nfds : Int) (read_fds : List Fd)
  | getline
  | send (fd : Fd) (bytes : List Byte)
  | recv (fd : Fd) (len : Nat)
  | cout (text : List Byte)
  | cerr (text : List Byte)
  | close (fd : Fd)
  deriving DecidableEq

/-- The event is a `send`. -/
def Event.isSend : Event → Bool
  | .send _ _ => true
  | _ => false

/-- The event is a `recv`. -/
def Event.isRecv : Event → Bool
  | .recv _ _ => true
  | _ => false

/-- The event is a `std::getline` on standard input. -/
def Event.isGetline : Event → Bool
  | .getline => true
  | _ => false

/-- The event is a `close`. -/
def Event.isClose : Event → Bool
  | .close _ => true
  | _ => false

/-- The event is a write to standard output. -/
def Event.isCout : Event → Bool
  | .cout _ => true
  | _ => false

/-- The event waits on, writes to or reads from descriptor `fd`. -/
def Event.usesFd (fd : Fd) : Event → Bool
  | .select _ fds => decide (fd ∈ fds)
  | .send f _ => decide (f = fd)
  | .recv f _ => decide (f = fd)
  | _ => false

/-! ## Environment of one loop iteration -/

/-- What the operating system returns during one pass through the loop body.
`line` and `bytes_received`/`received` are consulted only when the
corresponding call is made. -/
structure IterEnv where
  /-- return value of `select` -/
  activity : Int
  /-- members of `read_fds` after `select` returned -/
  read_fds : List Fd
  /-- line obtained by `std::getline`; `none` when the stream fails (end of input) -/
  line : Option (List Byte)
  /-- return value of `recv` -/
  bytes_received : Int
  /-- bytes that `recv` stores at the start of the buffer -/
  received : List Byte

/-- Macro `FD_ISSET`. -/
def FD_ISSET (fd : Fd) (fds : List Fd) : Bool := decide (fd ∈ fds)

/-- The variables `buffer` and `input` of `main`, alive across iterations. -/
structure Locals where
  buffer : List Byte
  input : List Byte
  deriving DecidableEq

/-- How control leaves a block of the loop body. -/
inductive Flow where
  | next
  | brk
  deriving DecidableEq

/-- Result of running a piece of the loop. -/
structure Step where
  trace : List Event
  locals : Locals
  flow : Flow

/-! ## Helpers for the C library calls -/

/-- Effect of `memset(buf, c, n)`. -/
def memset (buf : List Byte) (c : Byte) (n : Nat) : List Byte :=
  List.replicate n c ++ buf.drop n

/-- Effect of `recv(fd, buf, len, 0)` on the buffer: at most `len` of the incoming
bytes overwrite its beginning. -/
def recvInto (buf : List Byte) (len : Nat) (data : List Byte) : List Byte :=
  data.take len ++ buf.drop (data.take len).length

/-- Text written by `std::cout << buf` for a `char` array: the bytes before the
first zero byte. -/
def cstr (buf : List Byte) : List Byte :=
  buf.takeWhile (fun b => b != 0)

/-- Array returned by `std::string::c_str()`: the contents and a terminating zero. -/
def c_str (s : List Byte) : List Byte := s ++ [0]

/-- The literal `"quit"`. -/
def quit : List Byte := utf8 "quit"

/-! ## Texts that differ between the two programs -/

inductive Endpoint where
  | client
  | server
  deriving DecidableEq

/-- Notice printed when `recv` returns a value `<= 0`. -/
def disconnectNotice : Endpoint → List Byte
  | .client => utf8 "サーバーとの接続が切断されました。" ++ endl
  | .server => utf8 "クライアントが切断しました。" ++ endl

/-- Label printed in front of a received chunk. -/
def peerTag : Endpoint → List Byte
  | .client => utf8 "サーバー: "
  | .server => utf8 "クライアント: "

/-- Notice printed when `std::getline` fails. -/
def eofNotice : List Byte := utf8 "入力が終了しました。接続を閉じます。" ++ endl

/-- Notice printed when the line is `quit`. -/
def quitNotice : List Byte := utf8 "チャットを終了します。" ++ endl

/-- Message printed when `select` fails. -/
def selectError : List Byte := utf8 "エラー: select()に失敗しました" ++ endl

/-! ## The loop body -/

/-- Block `if (FD_ISSET(STDIN_FILENO, &read_fds)) { ... }`
(client.cpp 120-137, server.cpp 139-156). -/
def lineDispatcher (sock_fd : Fd) (st : Locals) (line : Option (List Byte)) : Step :=
  match line with
  | none =>
    { trace := [Event.getline, Event.cout eofNotice],
      locals := { st with input := [] }, flow := Flow.brk }
  | some l =>
    let st1 : Locals := { st with input := l }
    if st1.input = quit then
      { trace := [Event.getline, Event.cout quitNotice], locals := st1, flow := Flow.brk }
    else
      let st2 : Locals := { st1 with input := st1.input ++ utf8 "\n" }
      { trace := [Event.getline,
                  Event.send sock_fd ((c_str st2.input).take st2.input.length)],
        locals := st2, flow := Flow.next }

/-- Block `if (FD_ISSET(sock_fd, &read_fds)) { ... }`
(client.cpp 142-154, server.cpp 161-173). -/
def messagePrinter (ep : Endpoint) (sock_fd : Fd) (st : Locals)
    (bytes_received : Int) (received : List Byte) : Step :=
  let buf0 := memset st.buffer 0 BUFFER_SIZE
  let buf1 := recvInto buf0 (BUFFER_SIZE - 1) received
  let st1 : Locals := { st with buffer := buf1 }
  if bytes_received ≤ 0 then
    { trace := [Event.recv sock_fd (BUFFER_SIZE - 1), Event.cout (disconnectNotice ep)],
      locals := st1, flow := Flow.brk }
  else
    { trace := [Event.recv sock_fd (BUFFER_SIZE - 1), Event.cout (peerTag ep ++ cstr st1.buffer)],
      locals := st1, flow := Flow.next }

/-- The call of `select`, with the descriptor set rebuilt by `FD_ZERO` and the
two `FD_SET` and with `max_fd + 1` as first argument
(client.cpp 88-109, server.cpp 107-128). -/
def selectCall (sock_fd : Fd) : Event :=
  let read_fds : List Fd := [STDIN_FILENO, sock_fd]
  let max_fd := if sock_fd > STDIN_FILENO then sock_fd else STDIN_FILENO
  Event.select (max_fd + 1) read_fds

/-- One pass through the body of `while (running)`
(client.cpp 83-155, server.cpp 102-174). -/
def loopBody (ep : Endpoint) (sock_fd : Fd) (st : Locals) (e : IterEnv) : Step :=
  let wait := [selectCall sock_fd]
  if e.activity < 0 then
    { trace := wait ++ [Event.cerr selectError], locals := st, flow := Flow.brk }
  else
    let c : Step :=
      if FD_ISSET STDIN_FILENO e.read_fds then lineDispatcher sock_fd st e.line
      else { trace := [], locals := st, flow := Flow.next }
    match c.flow with
    | Flow.brk => { trace := wait ++ c.trace, locals := c.locals, flow := Flow.brk }
    | Flow.next =>
      let m : Step :=
        if FD_ISSET sock_fd e.read_fds then
          messagePrinter ep sock_fd c.locals e.bytes_received e.received
        else { trace := [], locals := c.locals, flow := Flow.next }
      { trace := wait ++ c.trace ++ m.trace, locals := m.locals, flow := m.flow }

/-- The loop `while (running) { ... }` run against the successive returns of
`select`.  `running` is never assigned, so the loop is left only by `break`.
When the list is used up the program is blocked in `select`: the flow is
`Flow.next`. -/
def duplexLoop (ep : Endpoint) (sock_fd : Fd) : Locals → List IterEnv → Step
  | st, [] => { trace := [], locals := st, flow := Flow.next }
  | st, e :: es =>
    let b := loopBody ep sock_fd st e
    match b.flow with
    | Flow.brk => b
    | Flow.next =>
      let r := duplexLoop ep sock_fd b.locals es
      { trace := b.trace ++ r.trace, locals := r.locals, flow := r.flow }

/-! ## The two programs -/

/-- Result of running a program against a finite list of `select` returns:
the events so far and the exit status, `none` while the program is still
blocked in `select`. -/
structure Run where
  trace : List Event
  exit : Option Int

/-- What is left of `main` once the loop has been entered: the loop, then the
statements after it (`closing`), then `return 0`. -/
def session (ep : Endpoint) (sock_fd : Fd) (st : Locals) (script : List IterEnv)
    (closing : List Event) : Run :=
  let r := duplexLoop ep sock_fd st script
  match r.flow with
  | Flow.brk => { trace := r.trace ++ closing, exit := some 0 }
  | Flow.next => { trace := r.trace, exit := none }

namespace Client

/-- Values the operating system returns to the client. -/
structure Env where
  /-- return value of `socket` -/
  socket : Int
  /-- return value of `inet_pton` -/
  inet_pton : Int
  /-- return value of `connect` -/
  connect : Int
  /-- indeterminate initial contents of `buffer` -/
  buffer : List Byte
  /-- successive returns of `select` and of the calls that follow it -/
  script : List IterEnv

/-- Every call before the loop succeeds, so that the loop is entered. -/
abbrev Env.connected (env : Env) : Prop :=
  0 ≤ env.socket ∧ 0 < env.inet_pton ∧ 0 ≤ env.connect

/-- Locals at the first iteration. -/
def Env.locals (env : Env) : Locals := { buffer := env.buffer, input := [] }

/-- Events up to the first `select` when every call succeeds (client.cpp 34-74). -/
def established (sock_fd : Fd) : List Event :=
  [Event.socket, Event.inet_pton SERVER_IP, Event.connect sock_fd PORT,
   Event.cout (utf8 "サーバーに接続しました (" ++ utf8 SERVER_IP ++ utf8 ":"
     ++ utf8 (toString PORT) ++ utf8 ")" ++ endl),
   Event.cout (utf8 "メッセージを入力してください（終了するには 'quit' と入力）:" ++ endl)]

/-- Statements after the loop (client.cpp 160-162). -/
def closing (sock_fd : Fd) : List Event :=
  [Event.close sock_fd, Event.cout (utf8 "クライアントを終了しました。" ++ endl)]

/-- Function `main` of client.cpp. -/
def main (env : Env) : Run :=
  let sock_fd := env.socket
  if sock_fd < 0 then
    { trace := [Event.socket,
        Event.cerr (utf8 "エラー: ソケットの作成に失敗しました" ++ endl),
        Event.cerr (utf8 "原因: システムリソースが不足している可能性があります" ++ endl),
        Event.cerr (utf8 "対処法: 他のプログラムを終了してリソースを解放してください" ++ endl)],
      exit := some 1 }
  else if env.inet_pton ≤ 0 then
    { trace := [Event.socket, Event.inet_pton SERVER_IP,
        Event.cerr (utf8 "エラー: 無効なIPアドレスです: " ++ utf8 SERVER_IP ++ endl),
        Event.cerr (utf8 "対処法: 正しいIPv4アドレスを指定してください" ++ endl),
        Event.close sock_fd],
      exit := some 1 }
  else if env.connect < 0 then
    { trace := [Event.socket, Event.inet_pton SERVER_IP, Event.connect sock_fd PORT,
        Event.cerr (utf8 "エラー: サーバーへの接続に失敗しました" ++ endl),
        Event.cerr (utf8 "原因: 以下のいずれかの可能性があります" ++ endl),
        Event.cerr (utf8 "  - サーバーが起動していない" ++ endl),
        Event.cerr (utf8 "  - IPアドレスまたはポート番号が間違っている" ++ endl),
        Event.cerr (utf8 "  - ファイアウォールがブロックしている" ++ endl),
        Event.cerr (utf8 "対処法: サーバーを先に起動してから再度接続してください" ++ endl),
        Event.close sock_fd],
      exit := some 1 }
  else
    let r := session Endpoint.client sock_fd env.locals env.script (closing sock_fd)
    { trace := established sock_fd ++ r.trace, exit := r.exit }

end Client

namespace Server

/-- Values the operating system returns to the server. -/
structure Env where
  /-- return value of `socket` -/
  socket : Int
  /-- return value of `setsockopt` -/
  setsockopt : Int
  /-- return value of `bind` -/
  bind : Int
  /-- return value of `listen` -/
  listen : Int
  /-- return value of `accept` -/
  accept : Int
  /-- text returned by `inet_ntoa(client_address.sin_addr)` -/
  client_address : List Byte
  /-- indeterminate initial contents of `buffer` -/
  buffer : List Byte
  /-- successive returns of `select` and of the calls that follow it -/
  script : List IterEnv

/-- Every call before the loop succeeds, so that the loop is entered. -/
abbrev Env.accepted (env : Env) : Prop :=
  0 ≤ env.socket ∧ 0 ≤ env.setsockopt ∧ 0 ≤ env.bind ∧ 0 ≤ env.listen ∧ 0 ≤ env.accept

/-- Locals at the first iteration. -/
def Env.locals (env : Env) : Locals := { buffer := env.buffer, input := [] }

/-- Events up to the call of `accept` when every call succeeds (server.cpp 32-84). -/
def listening (server_fd : Fd) : List Event :=
  [Event.socket, Event.setsockopt server_fd, Event.bind server_fd PORT,
   Event.listen server_fd 3,
   Event.cout (utf8 "サーバーを起動しました。ポート " ++ utf8 (toString PORT)
     ++ utf8 " で接続を待っています..." ++ endl),
   Event.accept server_fd]

/-- Events up to the first `select` when every call succeeds (server.cpp 32-93). -/
def established (server_fd : Fd) (client_address : List Byte) : List Event :=
  listening server_fd ++
  [Event.cout (utf8 "クライアントが接続しました: " ++ client_address ++ endl),
   Event.cout (utf8 "メッセージを入力してください（終了するには 'quit' と入力）:" ++ endl)]

/-- Statements after the loop (server.cpp 179-182). -/
def closing (server_fd client_fd : Fd) : List Event :=
  [Event.close client_fd, Event.close server_fd,
   Event.cout (utf8 "サーバーを終了しました。" ++ endl)]

/-- Function `main` of server.cpp. -/
def main (env : Env) : Run :=
  let server_fd := env.socket
  if server_fd < 0 then
    { trace := [Event.socket,
        Event.cerr (utf8 "エラー: ソケットの作成に失敗しました" ++ endl),
        Event.cerr (utf8 "原因: システムリソースが不足している可能性があります" ++ endl),
        Event.cerr (utf8 "対処法: 他のプログラムを終了してリソースを解放してください" ++ endl)],
      exit := some 1 }
  else if env.setsockopt < 0 then
    { trace := [Event.socket, Event.setsockopt server_fd,
        Event.cerr (utf8 "エラー: ソケットオプションの設定に失敗しました" ++ endl),
        Event.close server_fd],
      exit := some 1 }
  else if env.bind < 0 then
    { trace := [Event.socket, Event.setsockopt server_fd, Event.bind server_fd PORT,
        Event.cerr (utf8 "エラー: ポートへのバインドに失敗しました" ++ endl),
        Event.cerr (utf8 "原因: ポート " ++ utf8 (toString PORT)
          ++ utf8 " は既に使用中の可能性があります" ++ endl),
        Event.cerr (utf8 "対処法: 'lsof -i :" ++ utf8 (toString PORT)
          ++ utf8 "' で使用中のプロセスを確認し、" ++ endl),
        Event.cerr (utf8 "        終了するか、別のポート番号を使用してください" ++ endl),
        Event.close server_fd],
      exit := some 1 }
  else if env.listen < 0 then
    { trace := [Event.socket, Event.setsockopt server_fd, Event.bind server_fd PORT,
        Event.listen server_fd 3,
        Event.cerr (utf8 "エラー: listen()に失敗しました" ++ endl),
        Event.close server_fd],
      exit := some 1 }
  else
    let client_fd := env.accept
    if client_fd < 0 then
      { trace := listening server_fd ++
          [Event.cerr (utf8 "エラー: クライアント接続の受け入れに失敗しました" ++ endl),
           Event.close server_fd],
        exit := some 1 }
    else
      let r := session Endpoint.server client_fd env.locals env.script
        (closing server_fd client_fd)
      { trace := established server_fd env.client_address ++ r.trace, exit := r.exit }

end Server

/-! ## Both programs under one view -/

/-- Either program, together with the values the operating system returns to it. -/
inductive Program where
  | client (env : Client.Env)
  | server (env : Server.Env)

namespace Program

/-- Function `main` of the program. -/
def main : Program → Run
  | client env => Client.main env
  | server env => Server.main env

def endpoint : Program → Endpoint
  | client _ => Endpoint.client
  | server _ => Endpoint.server

/-- The connected socket: `sock_fd` in client.cpp, `client_fd` in server.cpp. -/
def conn : Program → Fd
  | client env => env.socket
  | server env => env.accept

/-- The listening socket `server_fd`, which only the server has. -/
def listener : Program → Option Fd
  | client _ => none
  | server env => some env.socket

/-- Every call before the loop succeeds, so that the loop is entered. -/
def entersLoop : Program → Bool
  | client env => decide env.connected
  | server env => decide env.accepted

def script : Program → List IterEnv
  | client env => env.script
  | server env => env.script

/-- Locals at the first iteration. -/
def locals : Program → Locals
  | client env => env.locals
  | server env => env.locals

/-- Events before the first `select` when the loop is entered. -/
def prologue : Program → List Event
  | client env => Client.established env.socket
  | server env => Server.established env.socket env.client_address

/-- Statements after the loop. -/
def closing : Program → List Event
  | client env => Client.closing env.socket
  | server env => Server.closing env.socket env.accept

/-- Events of the closing statements that follow the `close` of the connected socket. -/
def epilogue (p : Program) : List Event := p.closing.tail

end Program

/-! ## Sample inputs -/

namespace Sample

/-- Both sources ready: the user typed `hello` and the peer sent `hi`. -/
def chat (fd : Fd) : IterEnv :=
  { activity := 2, read_fds := [STDIN_FILENO, fd], line := some (utf8 "hello"),
    bytes_received := 3, received := utf8 "hi\n" }

/-- Only the socket is ready and `recv` returns 0. -/
def peerClosed (fd : Fd) : IterEnv :=
  { activity := 1, read_fds := [fd], line := none, bytes_received := 0, received := [] }

/-- Both sources ready: the user typed `quit` and the peer sent `hi`. -/
def quitWhilePending (fd : Fd) : IterEnv :=
  { activity := 2, read_fds := [STDIN_FILENO, fd], line := some quit,
    bytes_received := 3, received := utf8 "hi\n" }

/-- The call of `select` returns -1 and leaves both descriptors in the set. -/
def waitFailed (fd : Fd) : IterEnv :=
  { activity := -1, read_fds := [STDIN_FILENO, fd], line := some (utf8 "hello"),
    bytes_received := 3, received := utf8 "hi\n" }

/-- A client connected on descriptor 3. -/
def client (script : List IterEnv) : Program :=
  Program.client { socket := 3, inet_pton := 1, connect := 0, buffer := [], script := script }

/-- A server listening on descriptor 3 that accepted a peer on descriptor 4. -/
def server (script : List IterEnv) : Program :=
  Program.server
    { socket := 3, setsockopt := 0, bind := 0, listen := 0, accept := 4,
      client_address := utf8 "127.0.0.1", buffer := [], script := script }

end Sample

/-! ## Basic facts about the helpers -/

theorem quit_bytes : quit = [113, 117, 105, 116] := by decide

theorem newline_bytes : utf8 "\n" = [10] := by decide

theorem take_c_str (s : List Byte) : (c_str s).take s.length = s := by
  simp [c_str]

theorem takeWhile_append_stop (p : Byte → Bool) (l r : List Byte) (a : Byte)
    (ha : p a = false) : (l ++ a :: r).takeWhile p = l.takeWhile p := by
  induction l with
  | nil => simp [List.takeWhile, ha]
  | cons x xs ih =>
    by_cases hx : p x = true
    · simp [List.takeWhile_cons, hx, ih]
    · simp [List.takeWhile_cons, hx]

theorem takeWhile_eq_self_iff (l : List Byte) :
    l.takeWhile (fun b => b != 0) = l ↔ 0 ∉ l := by
  induction l with
  | nil => simp
  | cons x xs ih =>
    by_cases hx : x = 0
    · subst hx; simp [List.takeWhile_cons]
    · have hx2 : ¬ (0 = x) := fun h => hx h.symm
      simp [List.takeWhile_cons, hx, hx2, ih]

theorem zero_not_mem_takeWhile (l : List Byte) : 0 ∉ l.takeWhile (fun b => b != 0) := by
  intro h
  have := List.mem_takeWhile_imp h
  simp at this

theorem takeWhile_length_le (l : List Byte) :
    (l.takeWhile (fun b => b != 0)).length ≤ l.length :=
  (List.takeWhile_prefix _).length_le

/-- A zero-free initial segment of `l` is an initial segment of the text that
`cstr` extracts. -/
theorem prefix_takeWhile_of_zero_free (q l : List Byte) (hq : q <+: l) (h0 : 0 ∉ q) :
    q <+: l.takeWhile (fun b => b != 0) := by
  obtain ⟨t, rfl⟩ := hq
  induction q with
  | nil => simp
  | cons x xs ih =>
    have hx : x ≠ 0 := fun h => h0 (by simp [h])
    have hxs : 0 ∉ xs := fun h => h0 (by simp [h])
    simp only [List.cons_append, List.takeWhile_cons]
    simp [hx, ih hxs]

/-- After `memset` and `recv` of at most `BUFFER_SIZE - 1` bytes the buffer is
the stored bytes followed by a zero byte. -/
theorem buffer_after_recv (old received : List Byte) :
    ∃ rest, recvInto (memset old 0 BUFFER_SIZE) (BUFFER_SIZE - 1) received
      = received.take (BUFFER_SIZE - 1) ++ 0 :: rest := by
  have hle : (received.take (BUFFER_SIZE - 1)).length ≤ BUFFER_SIZE - 1 := by
    simp [List.length_take]
  unfold recvInto memset
  generalize received.take (BUFFER_SIZE - 1) = d at hle
  have hB : BUFFER_SIZE = 1024 := rfl
  refine ⟨List.replicate (BUFFER_SIZE - d.length - 1) 0 ++ old.drop BUFFER_SIZE, ?_⟩
  rw [List.drop_append_of_le_length (by simp; omega)]
  simp only [List.drop_replicate]
  have : BUFFER_SIZE - d.length = (BUFFER_SIZE - d.length - 1) + 1 := by omega
  rw [this, List.replicate_succ]
  simp

theorem cstr_after_recv (old received : List Byte) :
    cstr (recvInto (memset old 0 BUFFER_SIZE) (BUFFER_SIZE - 1) received)
      = (received.take (BUFFER_SIZE - 1)).takeWhile (fun b => b != 0) := by
  obtain ⟨rest, hr⟩ := buffer_after_recv old received
  rw [hr]
  exact takeWhile_append_stop _ _ _ _ (by simp)

/-! ## Basic facts about the loop body -/

theorem lineDispatcher_eof (sock_fd : Fd) (st : Locals) :
    lineDispatcher sock_fd st none =
      { trace := [Event.getline, Event.cout eofNotice],
        locals := { st with input := [] }, flow := Flow.brk } := rfl

theorem lineDispatcher_quit (sock_fd : Fd) (st : Locals) :
    lineDispatcher sock_fd st (some quit) =
      { trace := [Event.getline, Event.cout quitNotice],
        locals := { st with input := quit }, flow := Flow.brk } := by
  simp [lineDispatcher]

theorem lineDispatcher_line (sock_fd : Fd) (st : Locals) (l : List Byte) (h : l ≠ quit) :
    lineDispatcher sock_fd st (some l) =
      { trace := [Event.getline, Event.send sock_fd (l ++ [10])],
        locals := { st with input := l ++ [10] }, flow := Flow.next } := by
  have ht := take_c_str (l ++ [10])
  simp only [lineDispatcher, if_neg h, newline_bytes, ht]

theorem messagePrinter_closed (ep : Endpoint) (sock_fd : Fd) (st : Locals) (n : Int)
    (received : List Byte) (h : n ≤ 0) :
    messagePrinter ep sock_fd st n received =
      { trace := [Event.recv sock_fd (BUFFER_SIZE - 1), Event.cout (disconnectNotice ep)],
        locals := { st with
          buffer := recvInto (memset st.buffer 0 BUFFER_SIZE) (BUFFER_SIZE - 1) received },
        flow := Flow.brk } := by
  simp [messagePrinter, h]

theorem messagePrinter_data (ep : Endpoint) (sock_fd : Fd) (st : Locals) (n : Int)
    (received : List Byte) (h : 0 < n) :
    messagePrinter ep sock_fd st n received =
      { trace := [Event.recv sock_fd (BUFFER_SIZE - 1),
          Event.cout (peerTag ep ++
            cstr (recvInto (memset st.buffer 0 BUFFER_SIZE) (BUFFER_SIZE - 1) received))],
        locals := { st with
          buffer := recvInto (memset st.buffer 0 BUFFER_SIZE) (BUFFER_SIZE - 1) received },
        flow := Flow.next } := by
  simp [messagePrinter, not_le.mpr h]

theorem loopBody_wait_failed (ep : Endpoint) (sock_fd : Fd) (st : Locals) (e : IterEnv)
    (h : e.activity < 0) :
    loopBody ep sock_fd st e =
      { trace := [selectCall sock_fd, Event.cerr selectError], locals := st,
        flow := Flow.brk } := by
  simp [loopBody, h]

/-- The console block stops the iteration: the socket block is skipped. -/
theorem loopBody_console_brk (ep : Endpoint) (sock_fd : Fd) (st : Locals) (e : IterEnv)
    (hw : 0 ≤ e.activity) (hr : FD_ISSET STDIN_FILENO e.read_fds = true)
    (hb : (lineDispatcher sock_fd st e.line).flow = Flow.brk) :
    loopBody ep sock_fd st e =
      { trace := selectCall sock_fd :: (lineDispatcher sock_fd st e.line).trace,
        locals := (lineDispatcher sock_fd st e.line).locals, flow := Flow.brk } := by
  simp [loopBody, not_lt.mpr hw, hr, hb]

/-- The console block lets the iteration go on to the socket block. -/
theorem loopBody_console_next (ep : Endpoint) (sock_fd : Fd) (st : Locals) (e : IterEnv)
    (hw : 0 ≤ e.activity) (hr : FD_ISSET STDIN_FILENO e.read_fds = true)
    (hb : (lineDispatcher sock_fd st e.line).flow = Flow.next) :
    loopBody ep sock_fd st e =
      if FD_ISSET sock_fd e.read_fds then
        { trace := selectCall sock_fd :: ((lineDispatcher sock_fd st e.line).trace ++
            (messagePrinter ep sock_fd (lineDispatcher sock_fd st e.line).locals
              e.bytes_received e.received).trace),
          locals := (messagePrinter ep sock_fd (lineDispatcher sock_fd st e.line).locals
              e.bytes_received e.received).locals,
          flow := (messagePrinter ep sock_fd (lineDispatcher sock_fd st e.line).locals
              e.bytes_received e.received).flow }
      else
        { trace := selectCall sock_fd :: (lineDispatcher sock_fd st e.line).trace,
          locals := (lineDispatcher sock_fd st e.line).locals, flow := Flow.next } := by
  by_cases hs : FD_ISSET sock_fd e.read_fds = true <;>
    simp [loopBody, not_lt.mpr hw, hr, hb, hs]

/-- Standard input is not ready: only the socket block may run. -/
theorem loopBody_console_idle (ep : Endpoint) (sock_fd : Fd) (st : Locals) (e : IterEnv)
    (hw : 0 ≤ e.activity) (hr : FD_ISSET STDIN_FILENO e.read_fds = false) :
    loopBody ep sock_fd st e =
      if FD_ISSET sock_fd e.read_fds then
        { trace := selectCall sock_fd ::
            (messagePrinter ep sock_fd st e.bytes_received e.received).trace,
          locals := (messagePrinter ep sock_fd st e.bytes_received e.received).locals,
          flow := (messagePrinter ep sock_fd st e.bytes_received e.received).flow }
      else { trace := [selectCall sock_fd], locals := st, flow := Flow.next } := by
  by_cases hs : FD_ISSET sock_fd e.read_fds = true <;>
    simp [loopBody, not_lt.mpr hw, hr, hs]

/-! ## Basic facts about the loop -/

theorem duplexLoop_nil (ep : Endpoint) (sock_fd : Fd) (st : Locals) :
    duplexLoop ep sock_fd st [] = { trace := [], locals := st, flow := Flow.next } := rfl

theorem duplexLoop_cons_brk (ep : Endpoint) (sock_fd : Fd) (st : Locals) (e : IterEnv)
    (es : List IterEnv) (h : (loopBody ep sock_fd st e).flow = Flow.brk) :
    duplexLoop ep sock_fd st (e :: es) = loopBody ep sock_fd st e := by
  simp [duplexLoop, h]

theorem duplexLoop_cons_next (ep : Endpoint) (sock_fd : Fd) (st : Locals) (e : IterEnv)
    (es : List IterEnv) (h : (loopBody ep sock_fd st e).flow = Flow.next) :
    duplexLoop ep sock_fd st (e :: es) =
      { trace := (loopBody ep sock_fd st e).trace ++
          (duplexLoop ep sock_fd (loopBody ep sock_fd st e).locals es).trace,
        locals := (duplexLoop ep sock_fd (loopBody ep sock_fd st e).locals es).locals,
        flow := (duplexLoop ep sock_fd (loopBody ep sock_fd st e).locals es).flow } := by
  simp [duplexLoop, h]

/-- When the loop is still running after `pre`, the run over `pre ++ es` is the run
over `pre` followed by the run over `es` from the locals reached. -/
theorem duplexLoop_append (ep : Endpoint) (sock_fd : Fd) (st : Locals)
    (pre es : List IterEnv) (h : (duplexLoop ep sock_fd st pre).flow = Flow.next) :
    duplexLoop ep sock_fd st (pre ++ es) =
      { trace := (duplexLoop ep sock_fd st pre).trace ++
          (duplexLoop ep sock_fd (duplexLoop ep sock_fd st pre).locals es).trace,
        locals := (duplexLoop ep sock_fd (duplexLoop ep sock_fd st pre).locals es).locals,
        flow := (duplexLoop ep sock_fd (duplexLoop ep sock_fd st pre).locals es).flow } := by
  induction pre generalizing st with
  | nil => simp [duplexLoop_nil]
  | cons e pre ih =>
    cases hb : (loopBody ep sock_fd st e).flow with
    | brk =>
      rw [duplexLoop_cons_brk _ _ _ _ _ hb] at h
      rw [hb] at h
      cases h
    | next =>
      rw [duplexLoop_cons_next _ _ _ _ _ hb] at h
      simp only [List.cons_append]
      rw [duplexLoop_cons_next _ _ _ _ _ hb, duplexLoop_cons_next _ _ _ _ _ hb]
      simp only at h
      rw [ih _ h]
      simp

/-- The iteration after `pre` leaves the loop: nothing of `rest` is consumed. -/
theorem duplexLoop_leaves (ep : Endpoint) (sock_fd : Fd) (st : Locals)
    (pre rest : List IterEnv) (e : IterEnv)
    (h : (duplexLoop ep sock_fd st pre).flow = Flow.next)
    (hb : (loopBody ep sock_fd (duplexLoop ep sock_fd st pre).locals e).flow = Flow.brk) :
    duplexLoop ep sock_fd st (pre ++ e :: rest) =
      { trace := (duplexLoop ep sock_fd st pre).trace ++
          (loopBody ep sock_fd (duplexLoop ep sock_fd st pre).locals e).trace,
        locals := (loopBody ep sock_fd (duplexLoop ep sock_fd st pre).locals e).locals,
        flow := Flow.brk } := by
  rw [duplexLoop_append _ _ _ _ _ h, duplexLoop_cons_brk _ _ _ _ _ hb, hb]

theorem lineDispatcher_no_close (sock_fd : Fd) (st : Locals) (line : Option (List Byte)) :
    ∀ ev ∈ (lineDispatcher sock_fd st line).trace, ev.isClose = false := by
  intro ev hev
  cases line with
  | none => simp [lineDispatcher] at hev; rcases hev with rfl | rfl <;> rfl
  | some l =>
    by_cases hq : l = quit
    · subst hq
      rw [lineDispatcher_quit] at hev
      simp at hev; rcases hev with rfl | rfl <;> rfl
    · rw [lineDispatcher_line _ _ _ hq] at hev
      simp at hev; rcases hev with rfl | rfl <;> rfl

theorem messagePrinter_no_close (ep : Endpoint) (sock_fd : Fd) (st : Locals) (n : Int)
    (received : List Byte) :
    ∀ ev ∈ (messagePrinter ep sock_fd st n received).trace, ev.isClose = false := by
  intro ev hev
  by_cases hn : n ≤ 0
  · rw [messagePrinter_closed _ _ _ _ _ hn] at hev
    simp at hev; rcases hev with rfl | rfl <;> rfl
  · rw [messagePrinter_data _ _ _ _ _ (not_le.mp hn)] at hev
    simp at hev; rcases hev with rfl | rfl <;> rfl

theorem loopBody_no_close (ep : Endpoint) (sock_fd : Fd) (st : Locals) (e : IterEnv) :
    ∀ ev ∈ (loopBody ep sock_fd st e).trace, ev.isClose = false := by
  intro ev hev
  have hsel : (selectCall sock_fd).isClose = false := rfl
  by_cases hw : e.activity < 0
  · rw [loopBody_wait_failed _ _ _ _ hw] at hev
    simp at hev; rcases hev with rfl | rfl
    · exact hsel
    · rfl
  · have hw2 : 0 ≤ e.activity := not_lt.mp hw
    cases hr : FD_ISSET STDIN_FILENO e.read_fds with
    | false =>
      rw [loopBody_console_idle _ _ _ _ hw2 hr] at hev
      split at hev
      · simp at hev
        rcases hev with rfl | h
        · exact hsel
        · exact messagePrinter_no_close _ _ _ _ _ _ h
      · simp at hev; subst hev; exact hsel
    | true =>
      cases hb : (lineDispatcher sock_fd st e.line).flow with
      | brk =>
        rw [loopBody_console_brk _ _ _ _ hw2 hr hb] at hev
        simp at hev
        rcases hev with rfl | h
        · exact hsel
        · exact lineDispatcher_no_close _ _ _ _ h
      | next =>
        rw [loopBody_console_next _ _ _ _ hw2 hr hb] at hev
        split at hev
        · simp at hev
          rcases hev with rfl | h | h
          · exact hsel
          · exact lineDispatcher_no_close _ _ _ _ h
          · exact messagePrinter_no_close _ _ _ _ _ _ h
        · simp at hev
          rcases hev with rfl | h
          · exact hsel
          · exact lineDispatcher_no_close _ _ _ _ h

/-- No `close` is issued inside the loop. -/
theorem duplexLoop_no_close (ep : Endpoint) (sock_fd : Fd) (st : Locals)
    (es : List IterEnv) : ∀ ev ∈ (duplexLoop ep sock_fd st es).trace, ev.isClose = false := by
  induction es generalizing st with
  | nil => simp [duplexLoop_nil]
  | cons e es ih =>
    intro ev hev
    cases hb : (loopBody ep sock_fd st e).flow with
    | brk =>
      rw [duplexLoop_cons_brk _ _ _ _ _ hb] at hev
      exact loopBody_no_close _ _ _ _ _ hev
    | next =>
      rw [duplexLoop_cons_next _ _ _ _ _ hb] at hev
      simp only [List.mem_append] at hev
      rcases hev with h | h
      · exact loopBody_no_close _ _ _ _ _ h
      · exact ih _ _ h

/-! ## Basic facts about the programs -/

theorem session_leaves (ep : Endpoint) (sock_fd : Fd) (st : Locals)
    (pre rest : List IterEnv) (e : IterEnv) (closing : List Event)
    (h : (duplexLoop ep sock_fd st pre).flow = Flow.next)
    (hb : (loopBody ep sock_fd (duplexLoop ep sock_fd st pre).locals e).flow = Flow.brk) :
    session ep sock_fd st (pre ++ e :: rest) closing =
      { trace := (duplexLoop ep sock_fd st pre).trace ++
          (loopBody ep sock_fd (duplexLoop ep sock_fd st pre).locals e).trace ++ closing,
        exit := some 0 } := by
  simp [session, duplexLoop_leaves _ _ _ _ _ _ h hb]

theorem Client.main_connected (env : Client.Env) (h : env.connected) :
    Client.main env =
      { trace := Client.established env.socket ++
          (session Endpoint.client env.socket env.locals env.script
            (Client.closing env.socket)).trace,
        exit := (session Endpoint.client env.socket env.locals env.script
            (Client.closing env.socket)).exit } := by
  obtain ⟨h1, h2, h3⟩ := h
  simp [Client.main, not_lt.mpr h1, not_le.mpr h2, not_lt.mpr h3]

theorem Server.main_accepted (env : Server.Env) (h : env.accepted) :
    Server.main env =
      { trace := Server.established env.socket env.client_address ++
          (session Endpoint.server env.accept env.locals env.script
            (Server.closing env.socket env.accept)).trace,
        exit := (session Endpoint.server env.accept env.locals env.script
            (Server.closing env.socket env.accept)).exit } := by
  obtain ⟨h1, h2, h3, h4, h5⟩ := h
  simp [Server.main, not_lt.mpr h1, not_lt.mpr h2, not_lt.mpr h3, not_lt.mpr h4,
    not_lt.mpr h5]

/-! ## Basic facts about both programs -/

theorem Program.closing_eq (p : Program) :
    p.closing = Event.close p.conn :: p.epilogue := by
  cases p <;> rfl

theorem Program.main_enters (p : Program) (h : p.entersLoop = true) :
    p.main =
      { trace := p.prologue ++
          (session p.endpoint p.conn p.locals p.script p.closing).trace,
        exit := (session p.endpoint p.conn p.locals p.script p.closing).exit } := by
  cases p with
  | client env => exact Client.main_connected env (of_decide_eq_true h)
  | server env => exact Server.main_accepted env (of_decide_eq_true h)

/-- The iteration after `pre` leaves the loop: the program closes the connected
socket, finishes its closing statements and returns 0. -/
theorem Program.main_leaves (p : Program) (pre rest : List IterEnv) (e : IterEnv)
    (hc : p.entersLoop = true) (hs : p.script = pre ++ e :: rest)
    (h : (duplexLoop p.endpoint p.conn p.locals pre).flow = Flow.next)
    (hb : (loopBody p.endpoint p.conn
      (duplexLoop p.endpoint p.conn p.locals pre).locals e).flow = Flow.brk) :
    p.main =
      { trace := p.prologue ++
          ((duplexLoop p.endpoint p.conn p.locals pre).trace ++
            (loopBody p.endpoint p.conn
              (duplexLoop p.endpoint p.conn p.locals pre).locals e).trace ++
            Event.close p.conn :: p.epilogue),
        exit := some 0 } := by
  rw [Program.main_enters p hc, hs, session_leaves _ _ _ _ _ _ _ h hb, Program.closing_eq]

theorem Program.prologue_no_close (p : Program) :
    ∀ ev ∈ p.prologue, ev.isClose = false := by
  cases p with
  | client env =>
    intro ev hev
    simp [Program.prologue, Client.established] at hev
    rcases hev with rfl | rfl | rfl | rfl | rfl <;> rfl
  | server env =>
    intro ev hev
    simp [Program.prologue, Server.established, Server.listening] at hev
    rcases hev with rfl | rfl | rfl | rfl | rfl | rfl | rfl | rfl <;> rfl

/-! ## Console-ready path -/

/-- C1: in an iteration where `select` succeeded, standard input is ready and
`std::getline` delivers the line `L`, the iteration leaves the loop without any
`send` exactly when `L` is the four bytes of `quit`; then the whole loop stops
there, whatever would follow.  Any other line is sent with a newline appended, the
console block does not leave the loop, and the iteration leaves the loop only if
the socket block does (socket ready and `recv` returning a value `<= 0`).  The lines
`Quit`, ` quit`, `quit ` and the empty line are such other lines. -/
theorem quit_sentinel_exact (ep : Endpoint) (sock_fd : Fd) (st : Locals) (e : IterEnv)
    (rest : List IterEnv) (L : List Byte)
    (hwait : 0 ≤ e.activity) (hready : FD_ISSET STDIN_FILENO e.read_fds = true)
    (hline : e.line = some L) :
    quit = [113, 117, 105, 116] ∧
    (utf8 "Quit" ≠ quit ∧ utf8 " quit" ≠ quit ∧ utf8 "quit " ≠ quit ∧ [] ≠ quit) ∧
    (((loopBody ep sock_fd st e).flow = Flow.brk ∧
        ∀ ev ∈ (loopBody ep sock_fd st e).trace, ev.isSend = false) ↔ L = quit) ∧
    (L = quit →
      duplexLoop ep sock_fd st (e :: rest) =
        { trace := [selectCall sock_fd, Event.getline, Event.cout quitNotice],
          locals := { st with input := quit }, flow := Flow.brk }) ∧
    (L ≠ quit →
      (lineDispatcher sock_fd st e.line).flow = Flow.next ∧
      Event.send sock_fd (L ++ [10]) ∈ (loopBody ep sock_fd st e).trace ∧
      ((loopBody ep sock_fd st e).flow = Flow.brk ↔
        (FD_ISSET sock_fd e.read_fds = true ∧ e.bytes_received ≤ 0))) := by
  have hquit : L = quit →
      loopBody ep sock_fd st e =
        { trace := [selectCall sock_fd, Event.getline, Event.cout quitNotice],
          locals := { st with input := quit }, flow := Flow.brk } := by
    intro hL
    subst hL
    have hb : (lineDispatcher sock_fd st e.line).flow = Flow.brk := by
      rw [hline, lineDispatcher_quit]
    rw [loopBody_console_brk _ _ _ _ hwait hready hb, hline, lineDispatcher_quit]
  have hother : L ≠ quit →
      (lineDispatcher sock_fd st e.line).flow = Flow.next ∧
      Event.send sock_fd (L ++ [10]) ∈ (loopBody ep sock_fd st e).trace ∧
      ((loopBody ep sock_fd st e).flow = Flow.brk ↔
        (FD_ISSET sock_fd e.read_fds = true ∧ e.bytes_received ≤ 0)) := by
    intro hL
    have hn : (lineDispatcher sock_fd st e.line).flow = Flow.next := by
      rw [hline, lineDispatcher_line _ _ _ hL]
    refine ⟨hn, ?_, ?_⟩
    · rw [loopBody_console_next _ _ _ _ hwait hready hn, hline, lineDispatcher_line _ _ _ hL]
      split <;> simp
    · rw [loopBody_console_next _ _ _ _ hwait hready hn]
      by_cases hs : FD_ISSET sock_fd e.read_fds = true
      · by_cases hr : e.bytes_received ≤ 0
        · simp [hs, hr, messagePrinter_closed _ _ _ _ _ hr]
        · simp [hs, hr, messagePrinter_data _ _ _ _ _ (not_le.mp hr)]
      · simp [hs]
  refine ⟨quit_bytes, by decide, ⟨?_, ?_⟩, ?_, hother⟩
  · rintro ⟨_, hns⟩
    by_contra hL
    have := hns _ (hother hL).2.1
    simp [Event.isSend] at this
  · intro hL
    rw [hquit hL]
    refine ⟨rfl, ?_⟩
    intro ev hev
    simp at hev
    rcases hev with rfl | rfl | rfl <;> rfl
  · intro hL
    have hb : (loopBody ep sock_fd st e).flow = Flow.brk := by rw [hquit hL]
    rw [duplexLoop_cons_brk _ _ _ _ _ hb, hquit hL]

/-- C1, witness: the line ` quit` (with a leading blank) on the server, socket idle. -/
theorem quit_sentinel_exact_witness :
    (0 : Int) ≤ 1 ∧ FD_ISSET STDIN_FILENO [0] = true ∧
    (some (utf8 " quit") : Option (List Byte)) = some (utf8 " quit") ∧
    (quit = [113, 117, 105, 116] ∧
    (utf8 "Quit" ≠ quit ∧ utf8 " quit" ≠ quit ∧ utf8 "quit " ≠ quit ∧ [] ≠ quit) ∧
    (((loopBody Endpoint.server 4 ⟨[], []⟩ ⟨1, [0], some (utf8 " quit"), 0, []⟩).flow = Flow.brk ∧
        ∀ ev ∈ (loopBody Endpoint.server 4 ⟨[], []⟩ ⟨1, [0], some (utf8 " quit"), 0, []⟩).trace,
          ev.isSend = false) ↔ utf8 " quit" = quit) ∧
    (utf8 " quit" = quit →
      duplexLoop Endpoint.server 4 ⟨[], []⟩ (⟨1, [0], some (utf8 " quit"), 0, []⟩ :: []) =
        { trace := [selectCall 4, Event.getline, Event.cout quitNotice],
          locals := { (⟨[], []⟩ : Locals) with input := quit }, flow := Flow.brk }) ∧
    (utf8 " quit" ≠ quit →
      (lineDispatcher 4 ⟨[], []⟩ (some (utf8 " quit"))).flow = Flow.next ∧
      Event.send 4 (utf8 " quit" ++ [10]) ∈
        (loopBody Endpoint.server 4 ⟨[], []⟩ ⟨1, [0], some (utf8 " quit"), 0, []⟩).trace ∧
      ((loopBody Endpoint.server 4 ⟨[], []⟩ ⟨1, [0], some (utf8 " quit"), 0, []⟩).flow = Flow.brk ↔
        (FD_ISSET 4 [0] = true ∧ (0 : Int) ≤ 0)))) :=
  ⟨by decide, by decide, rfl,
    quit_sentinel_exact Endpoint.server 4 ⟨[], []⟩ ⟨1, [0], some (utf8 " quit"), 0, []⟩ []
      (utf8 " quit") (by decide) (by decide) rfl⟩

/-- C2: for a line `L` other than `quit`, read in an iteration where `select`
succeeded and standard input is ready, the iteration makes exactly one `send`; it
is on the connected socket and carries the bytes of `L`, unchanged and in order,
followed by one newline byte, `|L| + 1` bytes in all. -/
theorem line_sent_with_newline (ep : Endpoint) (sock_fd : Fd) (st : Locals) (e : IterEnv)
    (L : List Byte)
    (hwait : 0 ≤ e.activity) (hready : FD_ISSET STDIN_FILENO e.read_fds = true)
    (hline : e.line = some L) (hL : L ≠ quit) :
    (loopBody ep sock_fd st e).trace.filter Event.isSend = [Event.send sock_fd (L ++ [10])] ∧
    (lineDispatcher sock_fd st e.line).trace
      = [Event.getline, Event.send sock_fd (L ++ [10])] ∧
    (L ++ [10]).length = L.length + 1 ∧ (L ++ [10]).take L.length = L ∧
    (L ++ [10]).drop L.length = [10] := by
  have hn : (lineDispatcher sock_fd st e.line).flow = Flow.next := by
    rw [hline, lineDispatcher_line _ _ _ hL]
  refine ⟨?_, ?_, by simp, by simp, by simp⟩
  · rw [loopBody_console_next _ _ _ _ hwait hready hn, hline, lineDispatcher_line _ _ _ hL]
    by_cases hs : FD_ISSET sock_fd e.read_fds = true
    · by_cases hr : e.bytes_received ≤ 0
      · simp [hs, messagePrinter_closed _ _ _ _ _ hr, selectCall, List.filter, Event.isSend]
      · simp [hs, messagePrinter_data _ _ _ _ _ (not_le.mp hr), selectCall, List.filter,
          Event.isSend]
    · simp [hs, selectCall, List.filter, Event.isSend]
  · rw [hline, lineDispatcher_line _ _ _ hL]

/-- C2, witness: the client sends a line that contains a zero byte. -/
theorem line_sent_with_newline_witness :
    (0 : Int) ≤ 2 ∧ FD_ISSET STDIN_FILENO [0, 3] = true ∧
    (some [104, 0, 105] : Option (List Byte)) = some [104, 0, 105] ∧
    ([104, 0, 105] : List Byte) ≠ quit ∧
    ((loopBody Endpoint.client 3 ⟨[], []⟩ ⟨2, [0, 3], some [104, 0, 105], 2, [111, 107]⟩).trace.filter
        Event.isSend = [Event.send 3 ([104, 0, 105] ++ [10])] ∧
    (lineDispatcher 3 ⟨[], []⟩ (some [104, 0, 105])).trace
      = [Event.getline, Event.send 3 ([104, 0, 105] ++ [10])] ∧
    (([104, 0, 105] : List Byte) ++ [10]).length = ([104, 0, 105] : List Byte).length + 1 ∧
    (([104, 0, 105] : List Byte) ++ [10]).take ([104, 0, 105] : List Byte).length = [104, 0, 105] ∧
    (([104, 0, 105] : List Byte) ++ [10]).drop ([104, 0, 105] : List Byte).length = [10]) :=
  ⟨by decide, by decide, rfl, by decide,
    line_sent_with_newline Endpoint.client 3 ⟨[], []⟩ ⟨2, [0, 3], some [104, 0, 105], 2, [111, 107]⟩
      [104, 0, 105] (by decide) (by decide) rfl (by decide)⟩

/-- C3: in an iteration where `select` succeeded, standard input is ready and
`std::getline` reports end of input, the loop stops in that iteration: the only
events are the wait, the failed read and the closing notice, so nothing is sent
and nothing is read from the socket, whether or not the socket is ready and
whatever it would deliver; the program then runs its closing statements and
returns 0. -/
theorem eof_terminates (ep : Endpoint) (sock_fd : Fd) (st : Locals) (e : IterEnv)
    (rest : List IterEnv) (closing : List Event)
    (hwait : 0 ≤ e.activity) (hready : FD_ISSET STDIN_FILENO e.read_fds = true)
    (hline : e.line = none) :
    duplexLoop ep sock_fd st (e :: rest) =
      { trace := [selectCall sock_fd, Event.getline, Event.cout eofNotice],
        locals := { st with input := [] }, flow := Flow.brk } ∧
    (∀ ev ∈ (duplexLoop ep sock_fd st (e :: rest)).trace,
      ev.isSend = false ∧ ev.isRecv = false) ∧
    session ep sock_fd st (e :: rest) closing =
      { trace := [selectCall sock_fd, Event.getline, Event.cout eofNotice] ++ closing,
        exit := some 0 } := by
  have hb : (lineDispatcher sock_fd st e.line).flow = Flow.brk := by
    rw [hline, lineDispatcher_eof]
  have hbody : loopBody ep sock_fd st e =
      { trace := [selectCall sock_fd, Event.getline, Event.cout eofNotice],
        locals := { st with input := [] }, flow := Flow.brk } := by
    rw [loopBody_console_brk _ _ _ _ hwait hready hb, hline, lineDispatcher_eof]
  have hloop : duplexLoop ep sock_fd st (e :: rest) =
      { trace := [selectCall sock_fd, Event.getline, Event.cout eofNotice],
        locals := { st with input := [] }, flow := Flow.brk } := by
    rw [duplexLoop_cons_brk _ _ _ _ _ (by rw [hbody]), hbody]
  refine ⟨hloop, ?_, ?_⟩
  · rw [hloop]
    intro ev hev
    simp at hev
    rcases hev with rfl | rfl | rfl <;> exact ⟨rfl, rfl⟩
  · simp [session, hloop]

/-- C3, witness: end of input on the client while the socket is ready with data. -/
theorem eof_terminates_witness :
    (0 : Int) ≤ 2 ∧ FD_ISSET STDIN_FILENO [0, 3] = true ∧
    (none : Option (List Byte)) = none ∧
    (duplexLoop Endpoint.client 3 ⟨[], []⟩ (⟨2, [0, 3], none, 3, [104, 105, 10]⟩ :: []) =
      { trace := [selectCall 3, Event.getline, Event.cout eofNotice],
        locals := { (⟨[], []⟩ : Locals) with input := [] }, flow := Flow.brk } ∧
    (∀ ev ∈ (duplexLoop Endpoint.client 3 ⟨[], []⟩
        (⟨2, [0, 3], none, 3, [104, 105, 10]⟩ :: [])).trace,
      ev.isSend = false ∧ ev.isRecv = false) ∧
    session Endpoint.client 3 ⟨[], []⟩ (⟨2, [0, 3], none, 3, [104, 105, 10]⟩ :: [])
        (Client.closing 3) =
      { trace := [selectCall 3, Event.getline, Event.cout eofNotice] ++ Client.closing 3,
        exit := some 0 }) :=
  ⟨by decide, by decide, rfl,
    eof_terminates Endpoint.client 3 ⟨[], []⟩ ⟨2, [0, 3], none, 3, [104, 105, 10]⟩ []
      (Client.closing 3) (by decide) (by decide) rfl⟩

theorem tag_not_in_notice (ep : Endpoint) (text : List Byte) :
    disconnectNotice ep ≠ peerTag ep ++ text := by
  intro h
  have h2 : (disconnectNotice ep).take (peerTag ep).length = peerTag ep := by
    rw [h]; simp
  revert h2
  cases ep <;> decide

theorem Program.epilogue_quiet (p : Program) :
    ∀ ev ∈ p.epilogue, ev.usesFd p.conn = false ∧ ev.isGetline = false := by
  cases p with
  | client env =>
    intro ev hev
    simp [Program.epilogue, Program.closing, Client.closing] at hev
    subst hev
    exact ⟨rfl, rfl⟩
  | server env =>
    intro ev hev
    simp [Program.epilogue, Program.closing, Server.closing] at hev
    rcases hev with rfl | rfl <;> exact ⟨rfl, rfl⟩

/-! ## Connection-ready path -/

/-- C4: in an iteration that reaches the socket block (`select` succeeded, the
console block did not leave the loop, the socket is ready) and in which `recv`
returns zero or a negative value, the iteration ends with the `recv` and the
disconnect notice, no chunk tagged with the peer label is printed, and the loop
is left there: the next event is the `close` of the connected socket, after which
the program neither waits on, reads nor writes that socket, and it returns 0. -/
theorem disconnect_terminates (p : Program) (pre rest : List IterEnv) (e : IterEnv)
    (henter : p.entersLoop = true) (hs : p.script = pre ++ e :: rest)
    (hpre : (duplexLoop p.endpoint p.conn p.locals pre).flow = Flow.next)
    (hwait : 0 ≤ e.activity)
    (hconsole : FD_ISSET STDIN_FILENO e.read_fds = true → ∃ L, e.line = some L ∧ L ≠ quit)
    (hsock : FD_ISSET p.conn e.read_fds = true) (hret : e.bytes_received ≤ 0) :
    (loopBody p.endpoint p.conn (duplexLoop p.endpoint p.conn p.locals pre).locals e).trace =
      selectCall p.conn ::
        ((if FD_ISSET STDIN_FILENO e.read_fds = true then
            (lineDispatcher p.conn (duplexLoop p.endpoint p.conn p.locals pre).locals e.line).trace
          else []) ++
         [Event.recv p.conn (BUFFER_SIZE - 1), Event.cout (disconnectNotice p.endpoint)]) ∧
    (∀ text, Event.cout (peerTag p.endpoint ++ text) ∉
      (loopBody p.endpoint p.conn (duplexLoop p.endpoint p.conn p.locals pre).locals e).trace) ∧
    p.main =
      { trace := p.prologue ++
          ((duplexLoop p.endpoint p.conn p.locals pre).trace ++
            (loopBody p.endpoint p.conn
              (duplexLoop p.endpoint p.conn p.locals pre).locals e).trace ++
            Event.close p.conn :: p.epilogue),
        exit := some 0 } ∧
    (∀ ev ∈ p.epilogue, ev.usesFd p.conn = false ∧ ev.isGetline = false) := by
  generalize hst : (duplexLoop p.endpoint p.conn p.locals pre).locals = st
  have hbody : loopBody p.endpoint p.conn st e =
      { trace := selectCall p.conn ::
          ((if FD_ISSET STDIN_FILENO e.read_fds = true then
              (lineDispatcher p.conn st e.line).trace else []) ++
           [Event.recv p.conn (BUFFER_SIZE - 1), Event.cout (disconnectNotice p.endpoint)]),
        locals := (loopBody p.endpoint p.conn st e).locals, flow := Flow.brk } := by
    cases hr : FD_ISSET STDIN_FILENO e.read_fds with
    | false =>
      rw [loopBody_console_idle _ _ _ _ hwait hr]
      simp [hsock, messagePrinter_closed _ _ _ _ _ hret]
    | true =>
      obtain ⟨L, hline, hL⟩ := hconsole hr
      have hn : (lineDispatcher p.conn st e.line).flow = Flow.next := by
        rw [hline, lineDispatcher_line _ _ _ hL]
      rw [loopBody_console_next _ _ _ _ hwait hr hn]
      simp [hsock, messagePrinter_closed _ _ _ _ _ hret]
  have hflow : (loopBody p.endpoint p.conn st e).flow = Flow.brk := by rw [hbody]
  have htrace := congrArg Step.trace hbody
  simp only at htrace
  refine ⟨htrace, ?_, ?_, Program.epilogue_quiet p⟩
  · intro text hmem
    rw [htrace] at hmem
    have hsel : selectCall p.conn ≠ Event.cout (peerTag p.endpoint ++ text) := by
      simp [selectCall]
    simp only [List.mem_cons, List.mem_append, List.mem_singleton] at hmem
    rcases hmem with h | h | h
    · exact hsel h.symm
    · cases hr : FD_ISSET STDIN_FILENO e.read_fds with
      | false => simp [hr] at h
      | true =>
        obtain ⟨L, hline, hL⟩ := hconsole hr
        simp [hr, hline, lineDispatcher_line _ _ _ hL] at h
    · rcases h with h | h | h
      · cases h
      · injection h with h
        exact tag_not_in_notice _ _ h.symm
      · cases h
  · subst hst
    exact Program.main_leaves p pre rest e henter hs hpre hflow

/-- C4, witness: the server exchanges one pair of messages, then the peer closes. -/
theorem disconnect_terminates_witness :
    (Sample.server [Sample.chat 4, Sample.peerClosed 4]).entersLoop = true ∧
    (Sample.server [Sample.chat 4, Sample.peerClosed 4]).script
      = [Sample.chat 4] ++ Sample.peerClosed 4 :: [] ∧
    (duplexLoop Endpoint.server 4 ⟨[], []⟩ [Sample.chat 4]).flow = Flow.next ∧
    (0 : Int) ≤ (Sample.peerClosed 4).activity ∧
    FD_ISSET STDIN_FILENO (Sample.peerClosed 4).read_fds = false ∧
    FD_ISSET 4 (Sample.peerClosed 4).read_fds = true ∧
    (Sample.peerClosed 4).bytes_received ≤ 0 ∧
    (Sample.server [Sample.chat 4, Sample.peerClosed 4]).main.exit = some 0 ∧
    (Sample.server [Sample.chat 4, Sample.peerClosed 4]).main.trace.drop 13 =
      [selectCall 4, Event.recv 4 1023, Event.cout (disconnectNotice Endpoint.server),
       Event.close 4, Event.close 3, Event.cout (utf8 "サーバーを終了しました。\n")] :=
  ⟨by decide, rfl, by decide, by decide, by decide, by decide, by decide,
    congrArg Run.exit
      (disconnect_terminates (Sample.server [Sample.chat 4, Sample.peerClosed 4])
        [Sample.chat 4] [] (Sample.peerClosed 4) (by decide) rfl (by decide)
        (by decide) (fun h => absurd h (by decide)) (by decide) (by decide)).2.2.1,
    by decide⟩

/-! ## Readiness wait and closing -/

/-- C9: in an iteration where `select` returns a negative value the body consists
of the wait and the error message only: no line is read, nothing is sent and
nothing is received, whatever the descriptor set holds; the loop is left, the
connected socket is closed, and the program returns 0. -/
theorem wait_failure_closes (p : Program) (pre rest : List IterEnv) (e : IterEnv)
    (henter : p.entersLoop = true) (hs : p.script = pre ++ e :: rest)
    (hpre : (duplexLoop p.endpoint p.conn p.locals pre).flow = Flow.next)
    (hfail : e.activity < 0) :
    loopBody p.endpoint p.conn (duplexLoop p.endpoint p.conn p.locals pre).locals e =
      { trace := [selectCall p.conn, Event.cerr selectError],
        locals := (duplexLoop p.endpoint p.conn p.locals pre).locals, flow := Flow.brk } ∧
    (∀ ev ∈ (loopBody p.endpoint p.conn
        (duplexLoop p.endpoint p.conn p.locals pre).locals e).trace,
      ev.isGetline = false ∧ ev.isSend = false ∧ ev.isRecv = false) ∧
    p.main =
      { trace := p.prologue ++
          ((duplexLoop p.endpoint p.conn p.locals pre).trace ++
            [selectCall p.conn, Event.cerr selectError] ++
            Event.close p.conn :: p.epilogue),
        exit := some 0 } ∧
    (∀ ev ∈ p.epilogue, ev.usesFd p.conn = false ∧ ev.isGetline = false) := by
  have hbody := loopBody_wait_failed p.endpoint p.conn
    (duplexLoop p.endpoint p.conn p.locals pre).locals e hfail
  refine ⟨hbody, ?_, ?_, Program.epilogue_quiet p⟩
  · intro ev hev
    rw [hbody] at hev
    simp only [List.mem_cons, List.mem_singleton, List.not_mem_nil, or_false] at hev
    rcases hev with rfl | rfl <;> exact ⟨rfl, rfl, rfl⟩
  · have h := Program.main_leaves p pre rest e henter hs hpre (by rw [hbody])
    rw [hbody] at h
    exact h

/-- C9, witness: on the client the second call of `select` fails although both
descriptors are left in the set. -/
theorem wait_failure_closes_witness :
    (Sample.client [Sample.chat 3, Sample.waitFailed 3]).entersLoop = true ∧
    (Sample.client [Sample.chat 3, Sample.waitFailed 3]).script
      = [Sample.chat 3] ++ Sample.waitFailed 3 :: [] ∧
    (duplexLoop Endpoint.client 3 ⟨[], []⟩ [Sample.chat 3]).flow = Flow.next ∧
    (Sample.waitFailed 3).activity < 0 ∧
    (Sample.client [Sample.chat 3, Sample.waitFailed 3]).main.exit = some 0 ∧
    (Sample.client [Sample.chat 3, Sample.waitFailed 3]).main.trace.drop 10 =
      [selectCall 3, Event.cerr selectError, Event.close 3,
       Event.cout (utf8 "クライアントを終了しました。\n")] :=
  ⟨by decide, rfl, by decide, by decide,
    congrArg Run.exit
      (wait_failure_closes (Sample.client [Sample.chat 3, Sample.waitFailed 3])
        [Sample.chat 3] [] (Sample.waitFailed 3) (by decide) rfl (by decide)
        (by decide)).2.2.1,
    by decide⟩

/-- C6: when a program that entered the loop returns, it returns 0, the loop was
left by a `break`, and its events are the prologue, then all events of the loop,
then one `close` of the connected socket, then the rest of the closing
statements.  That `close` is the only one of this descriptor, and nothing after
it waits on, sends to or receives from the descriptor.  For the server the
listening descriptor is assumed to differ from the accepted one. -/
theorem connection_closed_once (p : Program) (code : Int)
    (henter : p.entersLoop = true) (hdistinct : p.listener ≠ some p.conn)
    (hexit : p.main.exit = some code) :
    code = 0 ∧
    (duplexLoop p.endpoint p.conn p.locals p.script).flow = Flow.brk ∧
    p.main.trace =
      (p.prologue ++ (duplexLoop p.endpoint p.conn p.locals p.script).trace) ++
        Event.close p.conn :: p.epilogue ∧
    (∀ ev ∈ p.prologue ++ (duplexLoop p.endpoint p.conn p.locals p.script).trace,
      ev.isClose = false) ∧
    (∀ ev ∈ p.epilogue, ev ≠ Event.close p.conn ∧ ev.usesFd p.conn = false) ∧
    p.main.trace.count (Event.close p.conn) = 1 := by
  have hmain := Program.main_enters p henter
  have hnc : ∀ ev ∈ p.prologue ++ (duplexLoop p.endpoint p.conn p.locals p.script).trace,
      ev.isClose = false := by
    intro ev hev
    rcases List.mem_append.mp hev with h | h
    · exact Program.prologue_no_close p ev h
    · exact duplexLoop_no_close _ _ _ _ ev h
  have hepi : ∀ ev ∈ p.epilogue, ev ≠ Event.close p.conn ∧ ev.usesFd p.conn = false := by
    cases p with
    | client env =>
      intro ev hev
      simp [Program.epilogue, Program.closing, Client.closing] at hev
      subst hev
      exact ⟨by simp, rfl⟩
    | server env =>
      have hne : env.socket ≠ env.accept := by
        intro h
        apply hdistinct
        simp [Program.listener, Program.conn, h]
      intro ev hev
      simp [Program.epilogue, Program.closing, Server.closing] at hev
      rcases hev with rfl | rfl
      · exact ⟨by simpa [Program.conn] using hne, rfl⟩
      · exact ⟨by simp, rfl⟩
  cases hflow : (duplexLoop p.endpoint p.conn p.locals p.script).flow with
  | next =>
    rw [hmain] at hexit
    simp [session, hflow] at hexit
  | brk =>
    have htrace : p.main.trace =
        (p.prologue ++ (duplexLoop p.endpoint p.conn p.locals p.script).trace) ++
          Event.close p.conn :: p.epilogue := by
      rw [hmain]
      simp [session, hflow, Program.closing_eq]
    have hcode : code = 0 := by
      rw [hmain] at hexit
      simp [session, hflow] at hexit
      exact hexit.symm
    refine ⟨hcode, rfl, htrace, hnc, hepi, ?_⟩
    rw [htrace, List.count_append, List.count_cons_self]
    have h1 : List.count (Event.close p.conn)
        (p.prologue ++ (duplexLoop p.endpoint p.conn p.locals p.script).trace) = 0 := by
      rw [List.count_eq_zero]
      intro hmem
      have := hnc _ hmem
      simp [Event.isClose] at this
    have h2 : List.count (Event.close p.conn) p.epilogue = 0 := by
      rw [List.count_eq_zero]
      intro hmem
      exact (hepi _ hmem).1 rfl
    omega

/-- C6, witness: the server exchanges one pair of messages, then the peer closes. -/
theorem connection_closed_once_witness :
    (Sample.server [Sample.chat 4, Sample.peerClosed 4]).entersLoop = true ∧
    (Sample.server [Sample.chat 4, Sample.peerClosed 4]).listener
      ≠ some (Sample.server [Sample.chat 4, Sample.peerClosed 4]).conn ∧
    (Sample.server [Sample.chat 4, Sample.peerClosed 4]).main.exit = some 0 ∧
    (Sample.server [Sample.chat 4, Sample.peerClosed 4]).main.trace.count (Event.close 4) = 1 :=
  ⟨by decide, by decide, by decide,
    (connection_closed_once (Sample.server [Sample.chat 4, Sample.peerClosed 4]) 0
      (by decide) (by decide) (by decide)).2.2.2.2.2⟩

/-! ## Order of service within one iteration -/

/-- C7: when `select` succeeded, both standard input and the socket are in the
set, the line read is not `quit` and `recv` returns a positive value, the events
of the iteration are, in this order, the wait, one `std::getline`, one `send` of
the line with its newline, one `recv`, and one print of the peer label followed
by the text of the buffer; the loop goes on. -/
theorem console_before_connection (ep : Endpoint) (sock_fd : Fd) (st : Locals) (e : IterEnv)
    (L : List Byte)
    (hwait : 0 ≤ e.activity) (hstdin : FD_ISSET STDIN_FILENO e.read_fds = true)
    (hsock : FD_ISSET sock_fd e.read_fds = true)
    (hline : e.line = some L) (hL : L ≠ quit) (hret : 0 < e.bytes_received) :
    (loopBody ep sock_fd st e).trace =
      [selectCall sock_fd, Event.getline, Event.send sock_fd (L ++ [10]),
       Event.recv sock_fd (BUFFER_SIZE - 1),
       Event.cout (peerTag ep ++ cstr (e.received.take (BUFFER_SIZE - 1)))] ∧
    (loopBody ep sock_fd st e).flow = Flow.next ∧
    (loopBody ep sock_fd st e).trace =
      selectCall sock_fd :: ((lineDispatcher sock_fd st e.line).trace ++
        (messagePrinter ep sock_fd (lineDispatcher sock_fd st e.line).locals
          e.bytes_received e.received).trace) := by
  have hn : (lineDispatcher sock_fd st e.line).flow = Flow.next := by
    rw [hline, lineDispatcher_line _ _ _ hL]
  have hbody := loopBody_console_next ep sock_fd st e hwait hstdin hn
  simp only [hsock, if_true] at hbody
  refine ⟨?_, ?_, ?_⟩
  · rw [hbody, hline, lineDispatcher_line _ _ _ hL, messagePrinter_data _ _ _ _ _ hret,
      cstr_after_recv]
    rfl
  · rw [hbody, messagePrinter_data _ _ _ _ _ hret]
  · rw [hbody]

/-- C7, witness: on the server the user typed `hello` while `hi` was pending. -/
theorem console_before_connection_witness :
    (0 : Int) ≤ (Sample.chat 4).activity ∧
    FD_ISSET STDIN_FILENO (Sample.chat 4).read_fds = true ∧
    FD_ISSET 4 (Sample.chat 4).read_fds = true ∧
    (Sample.chat 4).line = some (utf8 "hello") ∧ utf8 "hello" ≠ quit ∧
    0 < (Sample.chat 4).bytes_received ∧
    (loopBody Endpoint.server 4 ⟨[], []⟩ (Sample.chat 4)).trace =
      [selectCall 4, Event.getline, Event.send 4 (utf8 "hello" ++ [10]),
       Event.recv 4 (BUFFER_SIZE - 1),
       Event.cout (peerTag Endpoint.server ++
         cstr ((Sample.chat 4).received.take (BUFFER_SIZE - 1)))] :=
  ⟨by decide, by decide, by decide, rfl, by decide, by decide,
    (console_before_connection Endpoint.server 4 ⟨[], []⟩ (Sample.chat 4) (utf8 "hello")
      (by decide) (by decide) (by decide) rfl (by decide) (by decide)).1⟩

/-- C8, counterexample: on the client the user types `quit` in an iteration in which
the socket is ready with the chunk `hi`; the console block leaves the loop and the
iteration contains no `recv` and no print of the chunk. -/
theorem socket_skipped_after_quit :
    (0 : Int) ≤ (Sample.quitWhilePending 3).activity ∧
    FD_ISSET STDIN_FILENO (Sample.quitWhilePending 3).read_fds = true ∧
    FD_ISSET 3 (Sample.quitWhilePending 3).read_fds = true ∧
    (lineDispatcher 3 ⟨[], []⟩ (Sample.quitWhilePending 3).line).flow = Flow.brk ∧
    (loopBody Endpoint.client 3 ⟨[], []⟩ (Sample.quitWhilePending 3)).trace =
      [selectCall 3, Event.getline, Event.cout quitNotice] ∧
    ¬ (∃ ev ∈ (loopBody Endpoint.client 3 ⟨[], []⟩ (Sample.quitWhilePending 3)).trace,
        ev.isRecv = true) ∧
    (Sample.client [Sample.quitWhilePending 3]).main.trace =
      Client.established 3 ++
        [selectCall 3, Event.getline, Event.cout quitNotice] ++ Client.closing 3 := by
  decide

/-- C8, amended: when the console block leaves the loop (end of input or `quit`),
the iteration ends there even if the socket is ready: its events are the wait and
those of the console block, none of them a `recv`, a `send` or a print of the
disconnect notice or of a tagged chunk, and the loop stops without consuming what
follows. -/
theorem console_break_is_immediate (ep : Endpoint) (sock_fd : Fd) (st : Locals) (e : IterEnv)
    (rest : List IterEnv)
    (hwait : 0 ≤ e.activity) (hstdin : FD_ISSET STDIN_FILENO e.read_fds = true)
    (hterm : e.line = none ∨ e.line = some quit) :
    (lineDispatcher sock_fd st e.line).flow = Flow.brk ∧
    (loopBody ep sock_fd st e).trace =
      [selectCall sock_fd, Event.getline,
       Event.cout (if e.line = none then eofNotice else quitNotice)] ∧
    (∀ ev ∈ (loopBody ep sock_fd st e).trace, ev.isRecv = false ∧ ev.isSend = false) ∧
    duplexLoop ep sock_fd st (e :: rest) = loopBody ep sock_fd st e ∧
    (loopBody ep sock_fd st e).flow = Flow.brk := by
  have hb : (lineDispatcher sock_fd st e.line).flow = Flow.brk := by
    rcases hterm with h | h
    · rw [h, lineDispatcher_eof]
    · rw [h, lineDispatcher_quit]
  have hbody := loopBody_console_brk ep sock_fd st e hwait hstdin hb
  have htrace : (loopBody ep sock_fd st e).trace =
      [selectCall sock_fd, Event.getline,
       Event.cout (if e.line = none then eofNotice else quitNotice)] := by
    rw [hbody]
    rcases hterm with h | h
    · simp [h, lineDispatcher_eof]
    · simp [h, lineDispatcher_quit]
  have hflow : (loopBody ep sock_fd st e).flow = Flow.brk := by rw [hbody]
  refine ⟨hb, htrace, ?_, duplexLoop_cons_brk _ _ _ _ _ hflow, hflow⟩
  rw [htrace]
  intro ev hev
  simp only [List.mem_cons, List.mem_singleton, List.not_mem_nil, or_false] at hev
  rcases hev with rfl | rfl | rfl <;> exact ⟨rfl, rfl⟩

/-- C8, amended, witness: `quit` typed on the client while a chunk is pending. -/
theorem console_break_is_immediate_witness :
    (0 : Int) ≤ (Sample.quitWhilePending 3).activity ∧
    FD_ISSET STDIN_FILENO (Sample.quitWhilePending 3).read_fds = true ∧
    ((Sample.quitWhilePending 3).line = none ∨ (Sample.quitWhilePending 3).line = some quit) ∧
    duplexLoop Endpoint.client 3 ⟨[], []⟩ (Sample.quitWhilePending 3 :: [Sample.chat 3]) =
      loopBody Endpoint.client 3 ⟨[], []⟩ (Sample.quitWhilePending 3) ∧
    (loopBody Endpoint.client 3 ⟨[], []⟩ (Sample.quitWhilePending 3)).flow = Flow.brk :=
  ⟨by decide, by decide, Or.inr rfl,
    (console_break_is_immediate Endpoint.client 3 ⟨[], []⟩ (Sample.quitWhilePending 3)
      [Sample.chat 3] (by decide) (by decide) (Or.inr rfl)).2.2.2⟩

/-! ## Text printed for a received chunk -/

/-- C5, counterexample: the server that receives `hello` and a newline prints the
label of server.cpp in front of it, not `peer: `; and a client that receives the
three bytes `h`, zero, `i` prints only `h` after its label. -/
theorem peer_print_differs :
    (messagePrinter Endpoint.server 4 ⟨[], []⟩ 6 (utf8 "hello\n")).trace =
      [Event.recv 4 1023, Event.cout (utf8 "クライアント: hello\n")] ∧
    (messagePrinter Endpoint.server 4 ⟨[], []⟩ 6 (utf8 "hello\n")).trace ≠
      [Event.recv 4 1023, Event.cout (utf8 "peer: " ++ utf8 "hello\n")] ∧
    (messagePrinter Endpoint.client 3 ⟨[], []⟩ 3 [104, 0, 105]).trace =
      [Event.recv 3 1023, Event.cout (utf8 "サーバー: " ++ [104])] ∧
    (messagePrinter Endpoint.client 3 ⟨[], []⟩ 3 [104, 0, 105]).trace ≠
      [Event.recv 3 1023, Event.cout (peerTag Endpoint.client ++ [104, 0, 105])] := by
  decide

/-- C5, amended: for a chunk of `n > 0` bytes stored by `recv` (at most
`BUFFER_SIZE - 1`, the length requested) that holds no zero byte, the socket
block prints the label of the program, `サーバー: ` in the client and
`クライアント: ` in the server, followed by exactly those `n` bytes, unchanged and
in order, and the loop goes on. -/
theorem peer_chunk_printed (ep : Endpoint) (sock_fd : Fd) (st : Locals) (n : Int)
    (received : List Byte) (hn : 0 < n) (hlen : (received.length : Int) = n)
    (hmax : received.length ≤ BUFFER_SIZE - 1) (hzero : 0 ∉ received) :
    (messagePrinter ep sock_fd st n received).trace =
      [Event.recv sock_fd (BUFFER_SIZE - 1), Event.cout (peerTag ep ++ received)] ∧
    ((peerTag ep ++ received).length : Int) = (peerTag ep).length + n ∧
    (messagePrinter ep sock_fd st n received).flow = Flow.next ∧
    peerTag Endpoint.client = utf8 "サーバー: " ∧
    peerTag Endpoint.server = utf8 "クライアント: " := by
  have ht : received.take (BUFFER_SIZE - 1) = received := List.take_of_length_le hmax
  refine ⟨?_, ?_, ?_, rfl, rfl⟩
  · rw [messagePrinter_data _ _ _ _ _ hn, cstr_after_recv, ht,
      (takeWhile_eq_self_iff received).mpr hzero]
  · rw [← hlen]
    simp
  · rw [messagePrinter_data _ _ _ _ _ hn]

/-- C5, amended, witness: the client receives `hi` and a newline. -/
theorem peer_chunk_printed_witness :
    (0 : Int) < 3 ∧ (((utf8 "hi\n").length : Nat) : Int) = 3 ∧
    (utf8 "hi\n").length ≤ BUFFER_SIZE - 1 ∧ 0 ∉ utf8 "hi\n" ∧
    (messagePrinter Endpoint.client 3 ⟨[], []⟩ 3 (utf8 "hi\n")).trace =
      [Event.recv 3 (BUFFER_SIZE - 1), Event.cout (peerTag Endpoint.client ++ utf8 "hi\n")] :=
  ⟨by decide, by decide, by decide, by decide,
    (peer_chunk_printed Endpoint.client 3 ⟨[], []⟩ 3 (utf8 "hi\n") (by decide) (by decide)
      (by decide) (by decide)).1⟩

/-- C10: the socket block fills the first `BUFFER_SIZE = 1024` bytes of the buffer
with zero and asks `recv` for at most 1023 bytes.  For a chunk of `n` bytes with
`1 <= n <= 1023` the buffer then holds the chunk, followed by zero bytes up to
index 1023, so index `n` holds zero; the text printed after the label is the
text of the buffer, which is the longest initial segment of the chunk without a
zero byte: it is an initial segment of the chunk, holds no zero byte, no other
such segment is longer, it has at most `n` bytes, and it is the whole chunk
exactly when the chunk holds no zero byte. -/
theorem buffer_terminated_payload (ep : Endpoint) (sock_fd : Fd) (st : Locals) (n : Nat)
    (received : List Byte) (hlen : received.length = n) (h1 : 1 ≤ n) (h2 : n ≤ 1023) :
    BUFFER_SIZE = 1024 ∧
    (memset st.buffer 0 BUFFER_SIZE).take BUFFER_SIZE = List.replicate BUFFER_SIZE 0 ∧
    (messagePrinter ep sock_fd st (n : Int) received).trace =
      [Event.recv sock_fd 1023,
       Event.cout (peerTag ep ++
         cstr (messagePrinter ep sock_fd st (n : Int) received).locals.buffer)] ∧
    (messagePrinter ep sock_fd st (n : Int) received).locals.buffer =
      received ++ List.replicate (BUFFER_SIZE - n) 0 ++ st.buffer.drop BUFFER_SIZE ∧
    (messagePrinter ep sock_fd st (n : Int) received).locals.buffer[n]? = some 0 ∧
    cstr (messagePrinter ep sock_fd st (n : Int) received).locals.buffer <+: received ∧
    0 ∉ cstr (messagePrinter ep sock_fd st (n : Int) received).locals.buffer ∧
    (∀ q : List Byte, q <+: received → 0 ∉ q →
      q.length ≤ (cstr (messagePrinter ep sock_fd st (n : Int) received).locals.buffer).length) ∧
    (cstr (messagePrinter ep sock_fd st (n : Int) received).locals.buffer).length ≤ n ∧
    (cstr (messagePrinter ep sock_fd st (n : Int) received).locals.buffer = received ↔
      0 ∉ received) := by
  have hB : BUFFER_SIZE = 1024 := rfl
  have hpos : (0 : Int) < (n : Int) := by exact_mod_cast h1
  have hmax : received.length ≤ BUFFER_SIZE - 1 := by rw [hlen, hB]; exact h2
  have ht : received.take (BUFFER_SIZE - 1) = received := List.take_of_length_le hmax
  have hmp := messagePrinter_data ep sock_fd st (n : Int) received hpos
  have hbuf : (messagePrinter ep sock_fd st (n : Int) received).locals.buffer =
      received ++ List.replicate (BUFFER_SIZE - n) 0 ++ st.buffer.drop BUFFER_SIZE := by
    rw [hmp]
    simp only [recvInto, memset, ht]
    rw [List.drop_append_of_le_length (by simp; omega)]
    simp [List.drop_replicate, hlen]
  have hcstr : cstr (messagePrinter ep sock_fd st (n : Int) received).locals.buffer =
      received.takeWhile (fun b => b != 0) := by
    rw [hmp]
    simp only
    rw [cstr_after_recv, ht]
  refine ⟨hB, ?_, ?_, hbuf, ?_, ?_, ?_, ?_, ?_, ?_⟩
  · simp [memset]
  · rw [hmp]
    rfl
  · rw [hbuf]
    have hrep : List.replicate (BUFFER_SIZE - n) 0 =
        (0 : Byte) :: List.replicate (BUFFER_SIZE - n - 1) 0 := by
      have : BUFFER_SIZE - n = (BUFFER_SIZE - n - 1) + 1 := by omega
      rw [this, List.replicate_succ]
      simp
    rw [hrep, List.append_assoc, List.getElem?_append_right (by omega)]
    simp [hlen]
  · rw [hcstr]
    exact List.takeWhile_prefix _
  · rw [hcstr]
    exact zero_not_mem_takeWhile received
  · intro q hq h0
    rw [hcstr]
    exact (prefix_takeWhile_of_zero_free q received hq h0).length_le
  · rw [hcstr, ← hlen]
    exact takeWhile_length_le received
  · rw [hcstr]
    exact takeWhile_eq_self_iff received

/-- C10, witness: the client receives the three bytes `h`, zero, `i` after a
longer text was left in the buffer. -/
theorem buffer_terminated_payload_witness :
    ([104, 0, 105] : List Byte).length = 3 ∧ 1 ≤ 3 ∧ 3 ≤ 1023 ∧
    (messagePrinter Endpoint.client 3 ⟨utf8 "previous text", []⟩ ((3 : Nat) : Int)
      [104, 0, 105]).locals.buffer[3]? = some 0 ∧
    cstr (messagePrinter Endpoint.client 3 ⟨utf8 "previous text", []⟩ ((3 : Nat) : Int)
      [104, 0, 105]).locals.buffer = [104] :=
  ⟨by decide, by decide, by decide,
    (buffer_terminated_payload Endpoint.client 3 ⟨utf8 "previous text", []⟩ 3 [104, 0, 105]
      (by decide) (by decide) (by decide)).2.2.2.2.1,
    by decide⟩

end Chat
